import Mathlib

/-!
Shallow embedding of the NistRng library (NIST SP 800-22 R1a test suite,
`src/nistrng`).  Bit sequences are `List ℤ` (numpy int arrays), all float
arithmetic is modelled exactly over `ℚ`, and the transcendental library
calls (`erfc`, `gammaincc`, `sqrt`, `log`, `exp`, `numpy.fft`) are
abstracted as fields of a `RealFns` parameter: every other step of each
test kernel is translated literally from the source.
-/

/-- Result value type from `src/nistrng/test.py` (`Result`): test name,
passed flag and the score vector. -/
structure ResultR where
  name : String
  passed : Bool
  scores : List ℚ
deriving DecidableEq, Repr

/-- The transcendental primitives used by the test kernels
(`math.erfc`, `scipy.special.gammaincc`, `math.sqrt`, natural log,
log base 2, `e ** x`, `abs(numpy.fft.fft(x))`, and the overlapping-template
probability series `_get_probabilities`).  They are abstracted because they
have no exact rational counterpart; every test is parametric in them. -/
structure RealFns where
  erfc : ℚ → ℚ
  gammaincc : ℚ → ℚ → ℚ
  sqrt : ℚ → ℚ
  ln : ℚ → ℚ
  log2 : ℚ → ℚ
  expE : ℚ → ℚ
  fftMags : List ℤ → List ℚ
  ovProb : ℕ → ℚ → ℚ

/-- A fixed instantiation of the abstract primitives, used by witnesses. -/
def zeroFns : RealFns :=
  ⟨fun _ => 0, fun _ _ => 0, fun _ => 0, fun _ => 0, fun _ => 0, fun _ => 0,
   fun _ => [], fun _ _ => 0⟩

/-- Python slice `l[a:b]` (with `0 ≤ a ≤ b`). -/
def pyslice (l : List ℤ) (a b : ℕ) : List ℤ := (l.drop a).take (b - a)

/-- `numpy.count_nonzero`. -/
def countNonzero (l : List ℤ) : ℕ := (l.filter (fun b => b ≠ 0)).length

/-- The ±1 copy used by several tests: `bits_copy[bits_copy == 0] = -1`
(zeros become −1, all the other values are left unchanged). -/
def pm1 (bits : List ℤ) : List ℤ := bits.map (fun b => if b = 0 then -1 else b)

/-- `numpy.cumsum`. -/
def cumsum (l : List ℤ) : List ℤ := (l.scanl (· + ·) 0).tail

/-- The inclusive integer range `a, a+1, ..., b` (`range(a, b + 1)`). -/
def intRange (a b : ℤ) : List ℤ := (List.range (b + 1 - a).toNat).map (fun k => a + k)

/-- MSB-first integer value of a bit pattern (`_pattern_to_int`:
`result = (result << 1) + bit`). -/
def patternToInt (pattern : List ℤ) : ℤ := pattern.foldl (fun r b => 2 * r + b) 0

/-- Wrap an integer into an unsigned byte, as `numpy.array(-, dtype=numpy.uint8)`
does. -/
def toUInt8 (b : ℤ) : ℕ := (b % 256).toNat

/-- Reinterpret an unsigned byte as a signed one, as `astype(numpy.int8)` does. -/
def toInt8 (n : ℕ) : ℤ := if n < 128 then (n : ℤ) else (n : ℤ) - 256

/-- The 8 bits of a byte, MSB first (`numpy.unpackbits` on one byte). -/
def bitsOfByte (n : ℕ) : List ℤ :=
  [(n / 128 % 2 : ℕ), (n / 64 % 2 : ℕ), (n / 32 % 2 : ℕ), (n / 16 % 2 : ℕ),
   (n / 8 % 2 : ℕ), (n / 4 % 2 : ℕ), (n / 2 % 2 : ℕ), (n % 2 : ℕ)].map (fun k => (k : ℤ))

/-- `pack_sequence` from `src/nistrng/functions.py`: unpack every byte of the
input (converted to `uint8`) into 8 bits, MSB first. -/
def packSequence (sequence : List ℤ) : List ℤ :=
  (sequence.map (fun b => bitsOfByte (toUInt8 b))).flatten

/-- One byte out of up to 8 bits, MSB first, the tail padded with zero bits
(`numpy.packbits` on one group). Nonzero entries count as one. -/
def byteOfBits (bits : List ℤ) : ℕ :=
  ((bits ++ List.replicate (8 - bits.length) 0).take 8).foldl
    (fun a b => 2 * a + (if b ≠ 0 then 1 else 0)) 0

/-- Split a list into chunks of 8 (the grouping done by `numpy.packbits`). -/
def chunks8 (l : List ℤ) : List (List ℤ) :=
  if l = [] then [] else l.take 8 :: chunks8 (l.drop 8)
termination_by l.length
decreasing_by
  rename_i h
  cases l with
  | nil => exact absurd rfl h
  | cons a t => simp [List.length_drop]; omega

/-- `unpack_sequence` from `src/nistrng/functions.py`: `numpy.packbits`
followed by `astype(numpy.int8)`. -/
def unpackSequence (sequenceBinaryEncoded : List ℤ) : List ℤ :=
  (chunks8 sequenceBinaryEncoded).map (fun c => toInt8 (byteOfBits c))

/-! ## Battery driver (`src/nistrng/functions.py`)

A test is modelled behaviourally as its two methods; a battery is the
insertion-ordered list of `(name, test)` pairs of the Python dict, and the
module-global `_cached_tests` list is threaded explicitly.  Python
exceptions (`KeyError` on a missing battery name, `TypeError` on unpacking
`None`) are modelled with `Except String`. -/

/-- Behavioural model of a `Test` instance: `is_eligible` and `run`
(the latter returning a `Result` and the elapsed milliseconds). -/
structure TestM where
  isEligible : List ℤ → Bool
  run : List ℤ → ResultR × ℕ

/-- A battery: ordered `(name, test)` pairs of the Python dict. -/
abbrev Battery : Type := List (String × TestM)

/-- The `_cached_tests` global: a list of `(name, test)` pairs. -/
abbrev Cache : Type := List (String × TestM)

/-- The cache scan in `run_by_name_battery` / `check_eligibility_by_name_battery`:
`for name, instance in _cached_tests: if name == test_name: test = instance`
(the last matching entry wins). -/
def lookupLast (cache : Cache) (testName : String) : Option TestM :=
  cache.foldl (fun acc p => if p.1 = testName then some p.2 else acc) none

/-- Python dict lookup `battery[test_name]` (first pair with the key;
`none` models the `KeyError`). -/
def batteryGet (battery : Battery) (testName : String) : Option TestM :=
  (battery.find? (fun p => p.1 == testName)).map (fun p => p.2)

/-- `run_by_name_battery`: fetch the test from the cache (or from the battery,
appending it to the cache), then return `none` if an eligibility check is
requested and fails, and the test's `run` output otherwise.  The returned
pair carries the updated cache. -/
def runByNameBattery (cache : Cache) (testName : String) (bits : List ℤ)
    (battery : Battery) (checkEligibility : Bool) :
    Except String (Cache × Option (ResultR × ℕ)) :=
  match lookupLast cache testName with
  | some test =>
      if checkEligibility ∧ ¬ test.isEligible bits then Except.ok (cache, none)
      else Except.ok (cache, some (test.run bits))
  | none =>
      match batteryGet battery testName with
      | none => Except.error "KeyError"
      | some test =>
          if checkEligibility ∧ ¬ test.isEligible bits then
            Except.ok (cache ++ [(testName, test)], none)
          else Except.ok (cache ++ [(testName, test)], some (test.run bits))

/-- The loop body of `run_in_order_battery` over the names of the battery:
`result, elapsed_time = run_by_name_battery(...)` unpacks the returned value,
so a `None` (ineligible test) raises a `TypeError`; after appending, the loop
breaks as soon as `result.passed` is false. -/
def runInOrderGo (battery : Battery) (bits : List ℤ) (checkEligibility : Bool)
    (cache : Cache) : List String → Except String (Cache × List (ResultR × ℕ))
  | [] => Except.ok (cache, [])
  | testName :: rest =>
      match runByNameBattery cache testName bits battery checkEligibility with
      | Except.error e => Except.error e
      | Except.ok (_, none) => Except.error "TypeError"
      | Except.ok (cache1, some (result, elapsed)) =>
          if result.passed then
            match runInOrderGo battery bits checkEligibility cache1 rest with
            | Except.error e => Except.error e
            | Except.ok (cache2, results) =>
                Except.ok (cache2, (result, elapsed) :: results)
          else Except.ok (cache1, [(result, elapsed)])

/-- `run_in_order_battery` (starting from the given `_cached_tests` state). -/
def runInOrderBattery (cache : Cache) (bits : List ℤ) (battery : Battery)
    (checkEligibility : Bool) : Except String (Cache × List (ResultR × ℕ)) :=
  runInOrderGo battery bits checkEligibility cache (battery.map (fun p => p.1))

/-- `check_eligibility_by_name_battery`: same cache handling as
`run_by_name_battery`, then returns `test.is_eligible(bits)`. -/
def checkEligibilityByNameBattery (cache : Cache) (testName : String)
    (bits : List ℤ) (battery : Battery) : Except String (Cache × Bool) :=
  match lookupLast cache testName with
  | some test => Except.ok (cache, test.isEligible bits)
  | none =>
      match batteryGet battery testName with
      | none => Except.error "KeyError"
      | some test => Except.ok (cache ++ [(testName, test)], test.isEligible bits)

/-! ## Non-overlapping template matching
(`src/nistrng/sp800_22r1a/test_non_overlapping_template_matching.py`)

`random.choice(random.choice(self._templates))` makes the selected template
an input of the model: `selectTemplate` maps the two random choices (class
index, template index) to the template. -/

/-- The fixed aperiodic template table `self._templates` of
`NonOverlappingTemplateMatchingTest` (length classes 2..8), verbatim. -/
def nonOverlappingTemplates : List (List (List ℤ)) := [
  [[0, 1], [1, 0]],
  [[0, 0, 1], [0, 1, 1], [1, 0, 0], [1, 1, 0]],
  [[0, 0, 0, 1], [0, 0, 1, 1], [0, 1, 1, 1], [1, 0, 0, 0], [1, 1, 0, 0], [1, 1, 1, 0]],
  [[0, 0, 0, 0, 1], [0, 0, 0, 1, 1], [0, 0, 1, 0, 1], [0, 1, 0, 1, 1], [0, 0, 1, 1, 1], [0, 1, 1, 1, 1],
   [1, 1, 1, 0, 0], [1, 1, 0, 1, 0], [1, 0, 1, 0, 0], [1, 1, 0, 0, 0], [1, 0, 0, 0, 0], [1, 1, 1, 1, 0]],
  [[0, 0, 0, 0, 0, 1], [0, 0, 0, 0, 1, 1], [0, 0, 0, 1, 0, 1], [0, 0, 0, 1, 1, 1], [0, 0, 1, 0, 1, 1], [0, 0, 1, 1, 0, 1],
   [0, 0, 1, 1, 1, 1], [0, 1, 0, 0, 1, 1], [0, 1, 0, 1, 1, 1], [0, 1, 1, 1, 1, 1], [1, 0, 0, 0, 0, 0], [1, 0, 1, 0, 0, 0],
   [1, 0, 1, 1, 0, 0], [1, 1, 0, 0, 0, 0], [1, 1, 0, 0, 1, 0], [1, 1, 0, 1, 0, 0], [1, 1, 1, 0, 0, 0], [1, 1, 1, 0, 1, 0],
   [1, 1, 1, 1, 0, 0], [1, 1, 1, 1, 1, 0]],
  [[0, 0, 0, 0, 0, 0, 1], [0, 0, 0, 0, 0, 1, 1], [0, 0, 0, 0, 1, 0, 1], [0, 0, 0, 0, 1, 1, 1], [0, 0, 0, 1, 0, 0, 1], [0, 0, 0, 1, 0, 1, 1],
   [0, 0, 0, 1, 1, 0, 1], [0, 0, 0, 1, 1, 1, 1], [0, 0, 1, 0, 0, 1, 1], [0, 0, 1, 0, 1, 0, 1], [0, 0, 1, 0, 1, 1, 1], [0, 0, 1, 1, 0, 1, 1],
   [0, 0, 1, 1, 1, 0, 1], [0, 0, 1, 1, 1, 1, 1], [0, 1, 0, 0, 0, 1, 1], [0, 1, 0, 0, 1, 1, 1], [0, 1, 0, 1, 0, 1, 1], [0, 1, 0, 1, 1, 1, 1],
   [0, 1, 1, 0, 1, 1, 1], [0, 1, 1, 1, 1, 1, 1], [1, 0, 0, 0, 0, 0, 0], [1, 0, 0, 1, 0, 0, 0], [1, 0, 1, 0, 0, 0, 0], [1, 0, 1, 0, 1, 0, 0],
   [1, 0, 1, 1, 0, 0, 0], [1, 0, 1, 1, 1, 0, 0], [1, 1, 0, 0, 0, 0, 0], [1, 1, 0, 0, 0, 1, 0], [1, 1, 0, 0, 1, 0, 0], [1, 1, 0, 1, 0, 0, 0],
   [1, 1, 0, 1, 0, 1, 0], [1, 1, 0, 1, 1, 0, 0], [1, 1, 1, 0, 0, 0, 0], [1, 1, 1, 0, 0, 1, 0], [1, 1, 1, 0, 1, 0, 0], [1, 1, 1, 0, 1, 1, 0],
   [1, 1, 1, 1, 0, 0, 0], [1, 1, 1, 1, 0, 1, 0], [1, 1, 1, 1, 1, 0, 0], [1, 1, 1, 1, 1, 1, 0]],
  [[0, 0, 0, 0, 0, 0, 0, 1], [0, 0, 0, 0, 0, 0, 1, 1], [0, 0, 0, 0, 0, 1, 0, 1], [0, 0, 0, 0, 0, 1, 1, 1], [0, 0, 0, 0, 1, 0, 0, 1], [0, 0, 0, 0, 1, 0, 1, 1],
   [0, 0, 0, 0, 1, 1, 0, 1], [0, 0, 0, 0, 1, 1, 1, 1], [0, 0, 0, 1, 0, 0, 1, 1], [0, 0, 0, 1, 0, 1, 0, 1], [0, 0, 0, 1, 0, 1, 1, 1], [0, 0, 0, 1, 1, 0, 0, 1],
   [0, 0, 0, 1, 1, 0, 1, 1], [0, 0, 0, 1, 1, 1, 0, 1], [0, 0, 0, 1, 1, 1, 1, 1], [0, 0, 1, 0, 0, 0, 1, 1], [0, 0, 1, 0, 0, 1, 0, 1], [0, 0, 1, 0, 0, 1, 1, 1],
   [0, 0, 1, 0, 1, 0, 1, 1], [0, 0, 1, 0, 1, 1, 0, 1], [0, 0, 1, 0, 1, 1, 1, 1], [0, 0, 1, 1, 0, 1, 0, 1], [0, 0, 1, 1, 0, 1, 1, 1], [0, 0, 1, 1, 1, 0, 1, 1],
   [0, 0, 1, 1, 1, 1, 0, 1], [0, 0, 1, 1, 1, 1, 1, 1], [0, 1, 0, 0, 0, 0, 1, 1], [0, 1, 0, 0, 0, 1, 1, 1], [0, 1, 0, 0, 1, 0, 1, 1], [0, 1, 0, 0, 1, 1, 1, 1],
   [0, 1, 0, 1, 0, 0, 1, 1], [0, 1, 0, 1, 0, 1, 1, 1], [0, 1, 0, 1, 1, 0, 1, 1], [0, 1, 0, 1, 1, 1, 1, 1], [0, 1, 1, 0, 0, 1, 1, 1], [0, 1, 1, 0, 1, 1, 1, 1],
   [0, 1, 1, 1, 1, 1, 1, 1], [1, 0, 0, 0, 0, 0, 0, 0], [1, 0, 0, 1, 0, 0, 0, 0], [1, 0, 0, 1, 1, 0, 0, 0], [1, 0, 1, 0, 0, 0, 0, 0], [1, 0, 1, 0, 0, 1, 0, 0],
   [1, 0, 1, 0, 1, 0, 0, 0], [1, 0, 1, 0, 1, 1, 0, 0], [1, 0, 1, 1, 0, 0, 0, 0], [1, 0, 1, 1, 0, 1, 0, 0], [1, 0, 1, 1, 1, 0, 0, 0], [1, 0, 1, 1, 1, 1, 0, 0],
   [1, 1, 0, 0, 0, 0, 0, 0], [1, 1, 0, 0, 0, 0, 1, 0], [1, 1, 0, 0, 0, 1, 0, 0], [1, 1, 0, 0, 1, 0, 0, 0], [1, 1, 0, 0, 1, 0, 1, 0], [1, 1, 0, 1, 0, 0, 0, 0],
   [1, 1, 0, 1, 0, 0, 1, 0], [1, 1, 0, 1, 0, 1, 0, 0], [1, 1, 0, 1, 1, 0, 0, 0], [1, 1, 0, 1, 1, 0, 1, 0], [1, 1, 0, 1, 1, 1, 0, 0], [1, 1, 1, 0, 0, 0, 0, 0],
   [1, 1, 1, 0, 0, 0, 1, 0], [1, 1, 1, 0, 0, 1, 0, 0], [1, 1, 1, 0, 0, 1, 1, 0], [1, 1, 1, 0, 1, 0, 0, 0], [1, 1, 1, 0, 1, 0, 1, 0], [1, 1, 1, 0, 1, 1, 0, 0],
   [1, 1, 1, 1, 0, 0, 0, 0], [1, 1, 1, 1, 0, 0, 1, 0], [1, 1, 1, 1, 0, 1, 0, 0], [1, 1, 1, 1, 0, 1, 1, 0], [1, 1, 1, 1, 1, 0, 0, 0], [1, 1, 1, 1, 1, 0, 1, 0],
   [1, 1, 1, 1, 1, 1, 0, 0], [1, 1, 1, 1, 1, 1, 1, 0]]
]

/-- The template produced by `random.choice(random.choice(self._templates))`
once the two random draws are fixed. -/
def selectTemplate (classIndex templateIndex : ℕ) : List ℤ :=
  (nonOverlappingTemplates.getD classIndex []).getD templateIndex []

/-- The scanning loop of `_execute`:
`while position < (substring_bits_length - b_template.size)`: on a match
advance by the template size and count, otherwise advance by one.  `fuel`
bounds the recursion; with `fuel = limit + 1` and a nonempty template it
performs exactly the Python loop. -/
def scanGo (block tpl : List ℤ) (limit pos fuel : ℕ) : ℕ :=
  match fuel with
  | 0 => 0
  | fuel + 1 =>
      if pos < limit then
        if (block.drop pos).take tpl.length = tpl then
          1 + scanGo block tpl limit (pos + tpl.length) fuel
        else scanGo block tpl limit (pos + 1) fuel
      else 0

/-- Match count of the template in one block (`matches[i]`). -/
def blockMatches (block tpl : List ℤ) : ℕ :=
  scanGo block tpl (block.length - tpl.length) 0 (block.length - tpl.length + 1)

/-- The per-block match counts `matches` over the 8 blocks, with the
substring length `m` (`bits.size // 8`, possibly coming from the shape
cache) explicit. -/
def nonOverlappingMatchesM (m : ℕ) (tpl bits : List ℤ) : List ℕ :=
  (List.range 8).map (fun i => blockMatches (pyslice bits (i * m) ((i + 1) * m)) tpl)

/-- `mu = (substring_bits_length - b_template.size + 1) / 2 ** b_template.size`. -/
def nonOverlappingMuM (m : ℕ) (tpl : List ℤ) : ℚ :=
  ((m : ℚ) - (tpl.length : ℚ) + 1) / (2 ^ tpl.length : ℚ)

/-- `sigma = substring_bits_length * (1 / 2 ** m - (2 * m - 1) / 2 ** (2 * m))`
(this is the value the source stores in the variable `sigma`). -/
def nonOverlappingSigmaM (m : ℕ) (tpl : List ℤ) : ℚ :=
  (m : ℚ) *
    (1 / (2 ^ tpl.length : ℚ) - ((2 * tpl.length : ℕ) - (1 : ℚ)) / (2 ^ (2 * tpl.length) : ℚ))

/-- `chi_square = sum((matches - mu) ** 2 / sigma ** 2)`: note the source
divides by the square of the `sigma` variable. -/
def nonOverlappingChiSquareM (m : ℕ) (tpl bits : List ℤ) : ℚ :=
  ((nonOverlappingMatchesM m tpl bits).map (fun w =>
    ((w : ℚ) - nonOverlappingMuM m tpl) ^ 2 / nonOverlappingSigmaM m tpl ^ 2)).sum

/-- The statistic-to-Result part of `_execute`, with the substring length
explicit: if `chi_square != 0` compute the P-value and pass when it reaches
the significance value; every other path returns a failing result with
score `0.0`. -/
def nonOverlappingCore (f : RealFns) (tpl bits : List ℤ) (m : ℕ) : ResultR :=
  let chiSquare := nonOverlappingChiSquareM m tpl bits
  if chiSquare ≠ 0 then
    let score := f.gammaincc ((8 : ℚ) / 2) (chiSquare / 2)
    if score ≥ 1 / 100 then ⟨"Non Overlapping Template Matching", true, [score]⟩
    else ⟨"Non Overlapping Template Matching", false, [0]⟩
  else ⟨"Non Overlapping Template Matching", false, [0]⟩

/-- `_execute` of the non-overlapping template matching test with the
selected template given and a fresh shape cache
(`substring_bits_length = bits.size // 8`). -/
def nonOverlappingTemplateMatchingExecute (f : RealFns) (tpl bits : List ℤ) : ResultR :=
  nonOverlappingCore f tpl bits (bits.length / 8)

/-- The `chi_square` computed by a fresh execution. -/
def nonOverlappingChiSquare (tpl bits : List ℤ) : ℚ :=
  nonOverlappingChiSquareM (bits.length / 8) tpl bits

/-- The spec's statistic for the same test, written from the spec's words:
`χ² = Σ (W_i − μ)² / σ²` with `σ² = M(1/2^m − (2m−1)/2^(2m))` (the value of
the code's `sigma` variable), taking the `W_i` actually recorded by the code. -/
def specNonOverlappingChiSquare (tpl bits : List ℤ) : ℚ :=
  ((nonOverlappingMatchesM (bits.length / 8) tpl bits).map (fun w =>
    ((w : ℚ) - nonOverlappingMuM (bits.length / 8) tpl) ^ 2
      / nonOverlappingSigmaM (bits.length / 8) tpl)).sum

/-- The shape cache of the test (`_last_bits_size`, `_substring_bits_length`),
both initialized to `-1`: the first component of the step is the substring
length used, the second the updated cache. -/
def nonOverlappingCacheStep (cache : ℤ × ℤ) (n : ℕ) : ℤ × (ℤ × ℤ) :=
  if cache.1 = -1 ∨ cache.1 ≠ (n : ℤ) then (((n / 8 : ℕ) : ℤ), ((n : ℤ), ((n / 8 : ℕ) : ℤ)))
  else (cache.2, cache)

/-- A cache state that the source can actually reach: either still empty
(`-1`) or holding a size together with the derived block length. -/
def validNonOverlappingCache (cache : ℤ × ℤ) : Prop :=
  cache.1 = -1 ∨ ∃ n : ℕ, cache.1 = (n : ℤ) ∧ cache.2 = ((n / 8 : ℕ) : ℤ)

/-- `_execute` with the shape cache explicit: the substring length is taken
from the cache when `_last_bits_size` matches, and recomputed (updating the
cache) otherwise. -/
def nonOverlappingExecuteWithCache (f : RealFns) (tpl : List ℤ) (cache : ℤ × ℤ)
    (bits : List ℤ) : ResultR × (ℤ × ℤ) :=
  let step := nonOverlappingCacheStep cache bits.length
  (nonOverlappingCore f tpl bits step.1.toNat, step.2)

/-! ## Lemmas about `pack_sequence` / `unpack_sequence` -/

set_option maxRecDepth 4000 in
/-- `numpy.packbits` inverts `numpy.unpackbits` on a single byte value. -/
lemma byteOfBits_bitsOfByte : ∀ n < 256, byteOfBits (bitsOfByte n) = n := by decide

lemma chunks8_nil : chunks8 [] = [] := by
  rw [chunks8]
  simp

/-- Splitting off a full 8-bit chunk. -/
lemma chunks8_append8 (a l : List ℤ) (h : a.length = 8) :
    chunks8 (a ++ l) = a :: chunks8 l := by
  rw [chunks8]
  have hne : a ++ l ≠ [] := by
    intro hc
    have := congrArg List.length hc
    simp [h] at this
  rw [if_neg hne]
  have ht : (a ++ l).take 8 = a := by
    rw [← h, List.take_left]
  have hd : (a ++ l).drop 8 = l := by
    rw [← h, List.drop_left]
  rw [ht, hd]

lemma unpackSequence_chunk (a l : List ℤ) (h : a.length = 8) :
    unpackSequence (a ++ l) = toInt8 (byteOfBits a) :: unpackSequence l := by
  rw [unpackSequence, chunks8_append8 _ _ h, List.map_cons]
  rfl

lemma packSequence_cons (b : ℤ) (t : List ℤ) :
    packSequence (b :: t) = bitsOfByte (toUInt8 b) ++ packSequence t := rfl

/-- Packing the byte obtained from one 0/1 chunk restores the chunk. -/
lemma packSequence_single_chunk (b0 b1 b2 b3 b4 b5 b6 b7 : ℤ)
    (h0 : b0 = 0 ∨ b0 = 1) (h1 : b1 = 0 ∨ b1 = 1) (h2 : b2 = 0 ∨ b2 = 1)
    (h3 : b3 = 0 ∨ b3 = 1) (h4 : b4 = 0 ∨ b4 = 1) (h5 : b5 = 0 ∨ b5 = 1)
    (h6 : b6 = 0 ∨ b6 = 1) (h7 : b7 = 0 ∨ b7 = 1) :
    bitsOfByte (toUInt8 (toInt8 (byteOfBits [b0, b1, b2, b3, b4, b5, b6, b7])))
      = [b0, b1, b2, b3, b4, b5, b6, b7] := by
  rcases h0 with rfl | rfl <;> rcases h1 with rfl | rfl <;>
    rcases h2 with rfl | rfl <;> rcases h3 with rfl | rfl <;>
    rcases h4 with rfl | rfl <;> rcases h5 with rfl | rfl <;>
    rcases h6 with rfl | rfl <;> rcases h7 with rfl | rfl <;> decide

/-- `pack_sequence (unpack_sequence x) = x` for 0/1 vectors whose length is
a multiple of 8, by chunks of 8. -/
lemma pack_unpack_chunks : ∀ (n : ℕ) (x : List ℤ), x.length = 8 * n →
    (∀ b ∈ x, b = 0 ∨ b = 1) → packSequence (unpackSequence x) = x := by
  intro n
  induction n with
  | zero =>
      intro x hlen _
      have hx : x = [] := List.length_eq_zero.mp (by omega)
      subst hx
      simp [unpackSequence, chunks8_nil, packSequence]
  | succ k ih =>
      intro x hlen hx
      rcases x with _ | ⟨b0, _ | ⟨b1, _ | ⟨b2, _ | ⟨b3, _ | ⟨b4, _ | ⟨b5, _ | ⟨b6, _ | ⟨b7, x⟩⟩⟩⟩⟩⟩⟩⟩
      all_goals try (exfalso; simp only [List.length_nil, List.length_cons] at hlen; omega)
      have hsplit : b0 :: b1 :: b2 :: b3 :: b4 :: b5 :: b6 :: b7 :: x
          = [b0, b1, b2, b3, b4, b5, b6, b7] ++ x := rfl
      have hxlen : x.length = 8 * k := by
        simp only [List.length_cons] at hlen
        omega
      have hxmem : ∀ b ∈ x, b = 0 ∨ b = 1 := fun b hb => hx b (by simp [hb])
      rw [hsplit, unpackSequence_chunk _ _ (by rfl), packSequence_cons, ih x hxlen hxmem]
      rw [packSequence_single_chunk b0 b1 b2 b3 b4 b5 b6 b7
        (hx b0 (by simp)) (hx b1 (by simp)) (hx b2 (by simp)) (hx b3 (by simp))
        (hx b4 (by simp)) (hx b5 (by simp)) (hx b6 (by simp)) (hx b7 (by simp))]

/-- Unpacking the 8 bits of any byte value restores the byte modulo 256,
reinterpreted as a signed 8-bit integer. -/
lemma unpack_pack_map : ∀ y : List ℤ,
    unpackSequence (packSequence y) = y.map (fun b => toInt8 (toUInt8 b)) := by
  intro y
  induction y with
  | nil => simp [packSequence, unpackSequence, chunks8_nil]
  | cons b t ih =>
      rw [packSequence_cons, unpackSequence_chunk _ _ (by simp [bitsOfByte]), ih]
      rw [byteOfBits_bitsOfByte (toUInt8 b) (by
        have h1 : b % 256 < 256 := Int.emod_lt_of_pos b (by norm_num)
        have h0 : 0 ≤ b % 256 := Int.emod_nonneg b (by norm_num)
        simp only [toUInt8]
        omega)]
      rfl

/-! ## Overlapping template matching
(`src/nistrng/sp800_22r1a/test_overlapping_template_matching.py`) -/

/-- `b_template = numpy.ones(10)`. -/
def overlappingTemplate : List ℤ := List.replicate 10 1

/-- Sliding match count of the all-ones template in one block
(`for position in range(1062 - 10)`). -/
def overlappingBlockCount (block : List ℤ) : ℕ :=
  ((List.range (1062 - 10)).filter
    (fun pos => (block.drop pos).take 10 = overlappingTemplate)).length

/-- `matches_distributions`: the 6 bins `{0,1,2,3,4,≥5}` of the per-block
counts over the 968 blocks of 1062 bits. -/
def overlappingDistribution (bits : List ℤ) : List ℕ :=
  (List.range 968).foldl
    (fun dist i =>
      let c := overlappingBlockCount (pyslice bits (i * 1062) ((i + 1) * 1062))
      dist.set (min c 5) (dist.getD (min c 5) 0 + 1))
    (List.replicate 6 0)

/-- `eta = (1062 - 10 + 1.0) / 2 ** 10 / 2.0`. -/
def overlappingEta : ℚ := (1062 - 10 + 1) / 2 ^ 10 / 2

/-- The probability vector: the first five entries are overwritten by the
computed series `_get_probabilities` (abstracted as `f.ovProb`), and the last
is `1.0 - numpy.sum(probabilities)` where the sum still includes the default
constant `0.139865` sitting in the last slot. -/
def overlappingProbabilities (f : RealFns) : List ℚ :=
  let computed := [f.ovProb 0 overlappingEta, f.ovProb 1 overlappingEta,
    f.ovProb 2 overlappingEta, f.ovProb 3 overlappingEta, f.ovProb 4 overlappingEta]
  computed ++ [1 - (computed.sum + 0.139865)]

/-- `chi_square = sum((distribution - 968 * p) ** 2 / (968 * p))`. -/
def overlappingChiSquare (f : RealFns) (bits : List ℤ) : ℚ :=
  (((overlappingDistribution bits).zip (overlappingProbabilities f)).map
    (fun p => ((p.1 : ℚ) - 968 * p.2) ^ 2 / (968 * p.2))).sum

/-- `_execute` of the overlapping template matching test. -/
def overlappingTemplateMatchingExecute (f : RealFns) (bits : List ℤ) : ResultR :=
  let chiSquare := overlappingChiSquare f bits
  if chiSquare ≠ 0 then
    let score := f.gammaincc ((5 : ℚ) / 2) (chiSquare / 2)
    if score ≥ 1 / 100 then ⟨"Overlapping Template Matching", true, [score]⟩
    else ⟨"Overlapping Template Matching", false, [0]⟩
  else ⟨"Overlapping Template Matching", false, [0]⟩

/-! ## Approximate-entropy block length
(`src/nistrng/sp800_22r1a/test_approximate_entropy.py`, line 52) -/

/-- `blocks_length = min(2, max(3, int(math.floor(math.log(bits.size, 2))) - 6))`. -/
def approximateEntropyBlocksLength (n : ℕ) : ℤ :=
  min 2 (max 3 ((Nat.log 2 n : ℤ) - 6))

/-! ## Concrete inputs and abstract-primitive instantiations used below -/

/-- Eight blocks of `0111`: a 32-bit input on which the non-overlapping test
computes block length 4 and one match of the template `[0,1]` per block. -/
def bits0111x8 : List ℤ :=
  [0, 1, 1, 1, 0, 1, 1, 1, 0, 1, 1, 1, 0, 1, 1, 1,
   0, 1, 1, 1, 0, 1, 1, 1, 0, 1, 1, 1, 0, 1, 1, 1]

/-- Primitives with `gammaincc` returning a fixed value. -/
def constFns (q : ℚ) : RealFns := { zeroFns with gammaincc := fun _ _ => q }

/-- Primitives with `gammaincc a x = x` (distinguishes distinct statistics,
as the strictly monotone true `gammaincc` does). -/
def idFns : RealFns := { zeroFns with gammaincc := fun _ x => x }

/-! ## Evaluation lemmas on the concrete input `bits0111x8` -/

lemma eval_matches01 :
    nonOverlappingMatchesM 4 [0, 1] bits0111x8 = [1, 1, 1, 1, 1, 1, 1, 1] := by decide

lemma eval_matches10 :
    nonOverlappingMatchesM 4 [1, 0] bits0111x8 = [0, 0, 0, 0, 0, 0, 0, 0] := by decide

lemma eval_len : bits0111x8.length / 8 = 4 := by decide

lemma eval_chi01 : nonOverlappingChiSquare [0, 1] bits0111x8 = 8 := by
  rw [nonOverlappingChiSquare, eval_len, nonOverlappingChiSquareM, eval_matches01]
  norm_num [nonOverlappingMuM, nonOverlappingSigmaM]

lemma eval_chi10 : nonOverlappingChiSquare [1, 0] bits0111x8 = 72 := by
  rw [nonOverlappingChiSquare, eval_len, nonOverlappingChiSquareM, eval_matches10]
  norm_num [nonOverlappingMuM, nonOverlappingSigmaM]

lemma eval_spec_chi01 : specNonOverlappingChiSquare [0, 1] bits0111x8 = 2 := by
  rw [specNonOverlappingChiSquare, eval_len, eval_matches01]
  norm_num [nonOverlappingMuM, nonOverlappingSigmaM]

lemma eval_exec01 :
    nonOverlappingTemplateMatchingExecute idFns [0, 1] bits0111x8
      = ⟨"Non Overlapping Template Matching", true, [4]⟩ := by
  rw [nonOverlappingTemplateMatchingExecute, eval_len, nonOverlappingCore]
  rw [show nonOverlappingChiSquareM 4 [0, 1] bits0111x8 = 8 from by
    rw [← eval_len, ← nonOverlappingChiSquare, eval_chi01]]
  norm_num [idFns, zeroFns]

lemma eval_exec10 :
    nonOverlappingTemplateMatchingExecute idFns [1, 0] bits0111x8
      = ⟨"Non Overlapping Template Matching", true, [36]⟩ := by
  rw [nonOverlappingTemplateMatchingExecute, eval_len, nonOverlappingCore]
  rw [show nonOverlappingChiSquareM 4 [1, 0] bits0111x8 = 72 from by
    rw [← eval_len, ← nonOverlappingChiSquare, eval_chi10]]
  norm_num [idFns, zeroFns]

/-! ## Claim theorems: template matching, block length, bit packing -/

/-- C1: the claim states `χ² = Σ (W_i − μ)²/σ²` with
`σ² = M(1/2^m − (2m−1)/2^(2m))`.  The source stores that value of `σ²` in
the variable `sigma` and then divides by `sigma ** 2`, so on the 32-bit
input `bits0111x8` with the table template `[0,1]` (all eight `W_i = 1`,
`μ = 3/4`, `σ² = 1/4`) the code computes `χ² = 8` where the claimed
formula yields `2`. -/
theorem claim_C1_chi_square_divergence :
    selectTemplate 0 0 = [0, 1] ∧
    nonOverlappingChiSquare [0, 1] bits0111x8 = 8 ∧
    specNonOverlappingChiSquare [0, 1] bits0111x8 = 2 :=
  ⟨by decide, eval_chi01, eval_spec_chi01⟩

/-- C3 counterexample: at `N = 512` the source expression
`min(2, max(3, ⌊log₂ N⌋ − 6))` evaluates to `2`, not `3` as the claim
states. -/
theorem claim_C3_counterexample : ¬ approximateEntropyBlocksLength 512 = 3 := by
  unfold approximateEntropyBlocksLength
  omega

/-- C3 amended: `min(2, max(3, ⌊log₂ N⌋ − 6))` evaluates to `2` for every
sequence length (the outer `min` with 2 always wins against the inner
`max` with 3). -/
theorem claim_C3_amended (n : ℕ) : approximateEntropyBlocksLength n = 2 := by
  unfold approximateEntropyBlocksLength
  omega

/-- C5 counterexample: on `bits0111x8` with the table template `[1,0]` the
statistic is `χ² = 72 ≠ 0` and the true `Q(4, 36) ≈ 4·10⁻¹³` lies below the
significance value `0.01`; with the abstracted `gammaincc` instantiated in
that regime (a constant below `0.01`) the returned score vector is `[0]`,
not the computed score, refuting "the score vector is never truncated or
replaced". -/
theorem claim_C5_counterexample :
    selectTemplate 0 1 = [1, 0] ∧
    nonOverlappingChiSquare [1, 0] bits0111x8 ≠ 0 ∧
    (nonOverlappingTemplateMatchingExecute (constFns (1 / 2500000000000)) [1, 0]
        bits0111x8).scores
      ≠ [(constFns (1 / 2500000000000)).gammaincc ((8 : ℚ) / 2)
          (nonOverlappingChiSquare [1, 0] bits0111x8 / 2)] := by
  refine ⟨by decide, by rw [eval_chi10]; norm_num, ?_⟩
  rw [eval_chi10, nonOverlappingTemplateMatchingExecute, eval_len, nonOverlappingCore]
  rw [show nonOverlappingChiSquareM 4 [1, 0] bits0111x8 = 72 from by
    rw [← eval_len, ← nonOverlappingChiSquare, eval_chi10]]
  norm_num [constFns, zeroFns]

/-- C5 amended: for both template matching tests, if `χ² = 0` the test
fails with score vector `[0]`; otherwise, when the computed P-value
`Q(N_b/2, χ²/2)` reaches the significance value the test passes carrying
`[Q(N_b/2, χ²/2)]`, and when it does not the test fails carrying `[0]`
(the computed score is replaced by zero on failure). -/
theorem claim_C5_amended (f : RealFns) (tpl bits : List ℤ) :
    (nonOverlappingTemplateMatchingExecute f tpl bits =
      if nonOverlappingChiSquare tpl bits = 0 then
        ⟨"Non Overlapping Template Matching", false, [0]⟩
      else if f.gammaincc ((8 : ℚ) / 2) (nonOverlappingChiSquare tpl bits / 2) ≥ 1 / 100 then
        ⟨"Non Overlapping Template Matching", true,
          [f.gammaincc ((8 : ℚ) / 2) (nonOverlappingChiSquare tpl bits / 2)]⟩
      else ⟨"Non Overlapping Template Matching", false, [0]⟩) ∧
    (overlappingTemplateMatchingExecute f bits =
      if overlappingChiSquare f bits = 0 then
        ⟨"Overlapping Template Matching", false, [0]⟩
      else if f.gammaincc ((5 : ℚ) / 2) (overlappingChiSquare f bits / 2) ≥ 1 / 100 then
        ⟨"Overlapping Template Matching", true,
          [f.gammaincc ((5 : ℚ) / 2) (overlappingChiSquare f bits / 2)]⟩
      else ⟨"Overlapping Template Matching", false, [0]⟩) := by
  constructor
  · rw [nonOverlappingTemplateMatchingExecute, nonOverlappingCore, ← nonOverlappingChiSquare]
    by_cases h : nonOverlappingChiSquare tpl bits = 0 <;> simp [h]
  · rw [overlappingTemplateMatchingExecute]
    by_cases h : overlappingChiSquare f bits = 0 <;> simp [h]

/-- C7 counterexample: the test is not a function of the bits alone — the
randomly selected template changes the outcome.  On `bits0111x8`, templates
`[0,1]` and `[1,0]` (the two length-2 draws of the table) give the
statistics `8` and `72`; with the abstracted strictly monotone `gammaincc`
instantiated by a function distinguishing them, the two executions return
different Results. -/
theorem claim_C7_counterexample :
    nonOverlappingTemplateMatchingExecute idFns (selectTemplate 0 0) bits0111x8
      ≠ nonOverlappingTemplateMatchingExecute idFns (selectTemplate 0 1) bits0111x8 := by
  rw [show selectTemplate 0 0 = [0, 1] from by decide,
    show selectTemplate 0 1 = [1, 0] from by decide, eval_exec01, eval_exec10]
  simp

/-- C7 amended: the Result of the non-overlapping test is a function of the
input bits and the selected template only — in particular executing with any
reachable shape-cache state produces the same Result as a fresh execution. -/
theorem claim_C7_amended (f : RealFns) (tpl : List ℤ) (cache : ℤ × ℤ)
    (bits : List ℤ) (h : validNonOverlappingCache cache) :
    (nonOverlappingExecuteWithCache f tpl cache bits).1
      = nonOverlappingTemplateMatchingExecute f tpl bits := by
  have hm : (nonOverlappingCacheStep cache bits.length).1.toNat = bits.length / 8 := by
    rw [nonOverlappingCacheStep]
    by_cases hc : cache.1 = -1 ∨ cache.1 ≠ (bits.length : ℤ)
    · rw [if_pos hc]
      simp only []
      omega
    · rw [if_neg hc]
      push_neg at hc
      obtain ⟨hc1, hc2⟩ := hc
      rcases h with h | ⟨n, hn1, hn2⟩
      · exact absurd h hc1
      · have hn : n = bits.length := by
          have := hn1.symm.trans hc2
          exact_mod_cast this
        rw [hn2, hn]
        omega
  rw [nonOverlappingExecuteWithCache, nonOverlappingTemplateMatchingExecute]
  simp only [hm]

/-- C7 witness: the amended statement at the cache state `(32, 4)` (the
state left by a previous call on a 32-bit input) and the input
`bits0111x8`. -/
theorem claim_C7_witness :
    validNonOverlappingCache (32, 4) ∧
    (nonOverlappingExecuteWithCache idFns [0, 1] (32, 4) bits0111x8).1
      = nonOverlappingTemplateMatchingExecute idFns [0, 1] bits0111x8 :=
  ⟨Or.inr ⟨32, rfl, rfl⟩,
   claim_C7_amended idFns [0, 1] (32, 4) bits0111x8 (Or.inr ⟨32, rfl, rfl⟩)⟩

/-- C9 counterexample: the byte `0xA5 = 165` does not survive the round
trip — `astype(numpy.int8)` returns it as `−91`, so
`unpack_sequence(pack_sequence([0x5A, 0xA5]))` is `[90, −91]`, not
`[0x5A, 0xA5]` as the claim asserts. -/
theorem claim_C9_counterexample :
    unpackSequence (packSequence [0x5A, 0xA5]) ≠ [0x5A, 0xA5] := by
  rw [unpack_pack_map]
  decide

/-- C9 amended: `pack_sequence(unpack_sequence(x)) = x` for 0/1 vectors with
length a multiple of 8; `unpack_sequence(pack_sequence(y))` returns each
byte reduced modulo 256 and reinterpreted as a signed 8-bit integer — equal
to `y` exactly when every entry lies in `[0, 127]` (bytes ≥ 128 come back
negative); `unpack_sequence(pack_sequence([0x5A, 0xA5])) = [0x5A, −0x5B]`;
`pack_sequence([0xFF]) = [1,1,1,1,1,1,1,1]`. -/
theorem claim_C9_amended :
    (∀ x : List ℤ, (∀ b ∈ x, b = 0 ∨ b = 1) → 8 ∣ x.length →
      packSequence (unpackSequence x) = x) ∧
    (∀ y : List ℤ, unpackSequence (packSequence y)
      = y.map (fun b => toInt8 (toUInt8 b))) ∧
    (∀ y : List ℤ, (∀ b ∈ y, 0 ≤ b ∧ b ≤ 127) →
      unpackSequence (packSequence y) = y) ∧
    unpackSequence (packSequence [0x5A, 0xA5]) = [0x5A, -0x5B] ∧
    packSequence [0xFF] = [1, 1, 1, 1, 1, 1, 1, 1] := by
  refine ⟨?_, unpack_pack_map, ?_, by rw [unpack_pack_map]; decide, by decide⟩
  · intro x hx hdvd
    obtain ⟨n, hn⟩ := hdvd
    exact pack_unpack_chunks n x hn hx
  · intro y hy
    rw [unpack_pack_map]
    have hid : ∀ b ∈ y, toInt8 (toUInt8 b) = b := by
      intro b hb
      obtain ⟨h0, h1⟩ := hy b hb
      have hmod : b % 256 = b := Int.emod_eq_of_lt h0 (by omega)
      simp only [toInt8, toUInt8, hmod]
      omega
    calc y.map (fun b => toInt8 (toUInt8 b)) = y.map id := List.map_congr_left hid
      _ = y := List.map_id y

/-- C9 witness: the amended statement applied to the 0/1 vector
`[0,1,0,1,1,0,1,0]` and the in-range byte vector `[7, 100]`. -/
theorem claim_C9_witness :
    packSequence (unpackSequence [0, 1, 0, 1, 1, 0, 1, 0]) = [0, 1, 0, 1, 1, 0, 1, 0] ∧
    unpackSequence (packSequence [7, 100]) = [7, 100] :=
  ⟨claim_C9_amended.1 [0, 1, 0, 1, 1, 0, 1, 0] (by decide) (by decide),
   claim_C9_amended.2.2.1 [7, 100] (by decide)⟩

/-! ## Random excursion and random excursion variant
(`src/nistrng/sp800_22r1a/test_random_excursion.py`,
`src/nistrng/sp800_22r1a/test_random_excursion_variant.py`) -/

/-- `sum_prime = concatenate([0], cumsum(bits_copy), [0])` where
`bits_copy` maps 0 to −1. -/
def sumPrime (bits : List ℤ) : List ℤ := [0] ++ cumsum (pm1 bits) ++ [0]

/-- `cycles_size = numpy.count_nonzero(sum_prime[1:] == 0)` of the variant
test. -/
def variantCyclesSize (bits : List ℤ) : ℕ :=
  ((sumPrime bits).tail.filter (fun v => v = 0)).length

/-- ξ(x): occurrences of a state in `sum_prime` (the `counts` of
`numpy.unique`). -/
def stateCount (bits : List ℤ) (key : ℤ) : ℕ :=
  ((sumPrime bits).filter (fun v => v = key)).length

/-- The score list of the variant test: for every state of
`{−9,…,9}` present in `sum_prime` (the output of `numpy.unique` over the
values with `|v| < 10`, in ascending order) and different from zero, the
raw statistic `|ξ(x) − J| / sqrt(2J(4|x| − 2))` — no `erfc` is applied. -/
def randomExcursionVariantScores (f : RealFns) (bits : List ℤ) : List ℚ :=
  (intRange (-9) 9).filterMap (fun key =>
    if key ≠ 0 ∧ 0 < stateCount bits key then
      some ((((|(stateCount bits key : ℤ) - (variantCyclesSize bits : ℤ)| : ℤ) : ℚ)) /
        f.sqrt (2 * (variantCyclesSize bits : ℚ) * (4 * |(key : ℚ)| - 2)))
    else none)

/-- `_execute` of the random excursion variant test. -/
def randomExcursionVariantExecute (f : RealFns) (bits : List ℤ) : ResultR :=
  let scores := randomExcursionVariantScores f bits
  if scores.all (fun s => decide ((1 : ℚ) / 100 ≤ s)) then
    ⟨"Random Excursion Variant", true, scores⟩
  else ⟨"Random Excursion Variant", false, scores⟩

/-- The cycle-splitting loop of the random excursion test: iterate
`index` over `0 .. len(sum_prime) - 2`; a nonzero `sum_prime[index]` is
appended to the open cycle, a zero closes the cycle (appending the zero)
and opens a new `[0]`; the last open cycle is appended at the end. -/
def randomExcursionCycles (bits : List ℤ) : List (List ℤ) :=
  let sp := sumPrime bits
  let st := (List.range (sp.length - 1)).foldl
    (fun (acc : List (List ℤ) × List ℤ) index =>
      if sp.getD index 0 ≠ 0 then (acc.1, acc.2 ++ [sp.getD index 0])
      else (acc.1 ++ [acc.2 ++ [0]], [0]))
    ([], [0])
  st.1 ++ [st.2]

/-- The tallied `frequencies_table[value][k]`: the Python condition
`if 5 > k == occurrences: count += 1 elif occurrences >= 5: count += 1`
counts a cycle when its visit count equals `k < 5`, or whenever it is at
least 5 (for every bin). -/
def randomExcursionFrequency (bits : List ℤ) (value : ℤ) (k : ℕ) : ℕ :=
  ((randomExcursionCycles bits).filter (fun cycle =>
    (decide (k < 5) && ((cycle.filter (fun v => v = value)).length == k))
      || decide (5 ≤ (cycle.filter (fun v => v = value)).length))).length

/-- The spec's tally, written from the spec's words: the number of cycles
in which the state is visited exactly `k` times. -/
def specCyclesVisitedExactly (bits : List ℤ) (value : ℤ) (k : ℕ) : ℕ :=
  ((randomExcursionCycles bits).filter (fun cycle =>
    (cycle.filter (fun v => v = value)).length == k)).length

/-- `self._probabilities_xk`, the NIST reference matrix (rows |x| = 1..7). -/
def probabilitiesXK : List (List ℚ) :=
  [[0.5, 0.25, 0.125, 0.0625, 0.0312, 0.0312],
   [0.75, 0.0625, 0.0469, 0.0352, 0.0264, 0.0791],
   [0.8333, 0.0278, 0.0231, 0.0193, 0.0161, 0.0804],
   [0.875, 0.0156, 0.0137, 0.012, 0.0105, 0.0733],
   [0.9, 0.01, 0.009, 0.0081, 0.0073, 0.0656],
   [0.9167, 0.0069, 0.0064, 0.0058, 0.0053, 0.0588],
   [0.9286, 0.0051, 0.0047, 0.0044, 0.0041, 0.0531]]

/-- `self._probabilities_xk[row][k]`. -/
def probXK (row k : ℕ) : ℚ := (probabilitiesXK.getD row []).getD k 0

/-- The score list of the random excursion test: one
`Q(5/2, χ²(x)/2)` per state in the dict order `−4,…,−1,1,…,4`, with
`χ²(x) = Σ_k (V_k(x) − J·π_k)²/(J·π_k)` and `J = len(cycles)`. -/
def randomExcursionScores (f : RealFns) (bits : List ℤ) : List ℚ :=
  ([-4, -3, -2, -1, 1, 2, 3, 4] : List ℤ).map (fun value =>
    let J := (randomExcursionCycles bits).length
    let chiSquare := ((List.range 6).map (fun k =>
      ((randomExcursionFrequency bits value k : ℚ) - J * probXK (value.natAbs - 1) k) ^ 2
        / ((J : ℚ) * probXK (value.natAbs - 1) k))).sum
    f.gammaincc ((5 : ℚ) / 2) (chiSquare / 2))

/-- `_execute` of the random excursion test. -/
def randomExcursionExecute (f : RealFns) (bits : List ℤ) : ResultR :=
  let scores := randomExcursionScores f bits
  if scores.all (fun s => decide ((1 : ℚ) / 100 ≤ s)) then
    ⟨"Random Excursion", true, scores⟩
  else ⟨"Random Excursion", false, scores⟩

/-- The 12-bit walk `0,1,2,1,2,1,2,1,2,1,2,1,0(,0)`: its single real cycle
visits the state 1 six times. -/
def bits12 : List ℤ := [1, 1, 0, 1, 0, 1, 0, 1, 0, 1, 0, 0]

/-- C2: on `bits = [1,1]` (where `S' = [0,1,2,0]` and `J = 1 ≥ 1`) the
returned score vector is `[0, 0]`: only the two states `1` and `2` that
occur in `S'` get an entry (not one per state of `{−9,…,−1,1,…,9}`), and
each entry is the raw statistic `|ξ(x) − J|/√(2J(4|x|−2))` — the claimed
`erfc` is never applied (here both statistics are 0, whereas `erfc(0) = 1`). -/
theorem claim_C2_no_erfc_and_missing_states (f : RealFns) :
    randomExcursionVariantExecute f [1, 1] = ⟨"Random Excursion Variant", false, [0, 0]⟩ := by
  have h1 : intRange (-9) 9
      = [-9, -8, -7, -6, -5, -4, -3, -2, -1, 0, 1, 2, 3, 4, 5, 6, 7, 8, 9] := by
    decide
  have hscores : randomExcursionVariantScores f [1, 1] = [0, 0] := by
    rw [randomExcursionVariantScores, h1]
    norm_num [stateCount, sumPrime, cumsum, pm1, variantCyclesSize, List.filterMap]
  rw [randomExcursionVariantExecute, hscores]
  norm_num

/-- C4: on `bits12` the code's cycle list is
`[[0,0], [0,1,2,1,2,1,2,1,2,1,2,1,0], [0]]` and the state `1` is visited
6 times in the middle cycle; the claim says `V_0(1)` is the number of
cycles visiting `1` exactly 0 times (namely 2), but the `elif
occurrences >= 5` branch also counts the 6-visit cycle into the `k = 0`
bin, so the code tallies 3. -/
theorem claim_C4_frequency_divergence :
    randomExcursionFrequency bits12 1 0 = 3 ∧ specCyclesVisitedExactly bits12 1 0 = 2 :=
  ⟨by decide, by decide⟩

/-! ## Claim theorems: battery driver -/

/-- A test that is always eligible and always passes. -/
def alwaysPassTestM : TestM := ⟨fun _ => true, fun _ => (⟨"pass", true, [1]⟩, 0)⟩

/-- A test that is never eligible. -/
def neverEligibleTestM : TestM := ⟨fun _ => false, fun _ => (⟨"never", true, [1]⟩, 0)⟩

/-- C6: running the in-order battery `[a ↦ always-eligible passing test,
b ↦ never-eligible test]` with `check_eligibility = true` raises a
`TypeError` (`result, elapsed_time = None` unpacks the `None` returned for
the ineligible test) instead of recording a null placeholder. -/
theorem claim_C6_type_error_on_ineligible :
    runInOrderBattery [] [] [("a", alwaysPassTestM), ("b", neverEligibleTestM)] true
      = Except.error "TypeError" := rfl

/-- The last appended cache entry wins the cache scan. -/
lemma lookupLast_append_self (cache : Cache) (name : String) (t : TestM) :
    lookupLast (cache ++ [(name, t)]) name = some t := by
  rw [lookupLast, List.foldl_append]
  simp

/-- C10: once a test name is resolved, the pair is appended to
`_cached_tests` and every later `run_by_name_battery` or
`check_eligibility_by_name_battery` call with that name uses the cached
instance, ignoring the battery argument (`battery2` does not appear on the
right-hand sides of the later-call equations). -/
theorem claim_C10_cache_shadows_battery :
    (∀ (cache : Cache) (battery1 : Battery) (name : String) (t1 : TestM)
        (bits : List ℤ) (check : Bool),
      lookupLast cache name = none → batteryGet battery1 name = some t1 →
      runByNameBattery cache name bits battery1 check
        = Except.ok (cache ++ [(name, t1)],
            if check ∧ ¬ t1.isEligible bits then none else some (t1.run bits))) ∧
    (∀ (cache : Cache) (battery2 : Battery) (name : String) (t1 : TestM)
        (bits : List ℤ) (check : Bool),
      runByNameBattery (cache ++ [(name, t1)]) name bits battery2 check
        = Except.ok (cache ++ [(name, t1)],
            if check ∧ ¬ t1.isEligible bits then none else some (t1.run bits))) ∧
    (∀ (cache : Cache) (battery2 : Battery) (name : String) (t1 : TestM)
        (bits : List ℤ),
      checkEligibilityByNameBattery (cache ++ [(name, t1)]) name bits battery2
        = Except.ok (cache ++ [(name, t1)], t1.isEligible bits)) := by
  refine ⟨?_, ?_, ?_⟩
  · intro cache battery1 name t1 bits check hlook hget
    simp only [runByNameBattery, hlook, hget]
    split <;> rfl
  · intro cache battery2 name t1 bits check
    simp only [runByNameBattery, lookupLast_append_self]
    split <;> rfl
  · intro cache battery2 name t1 bits
    simp only [checkEligibilityByNameBattery, lookupLast_append_self]

/-- C10 witness: the first lookup of `"a"` caches the always-passing test;
a later call passing a battery that maps `"a"` to a different instance
still runs the cached one. -/
theorem claim_C10_witness :
    runByNameBattery [] "a" [] [("a", alwaysPassTestM)] true
      = Except.ok ([("a", alwaysPassTestM)], some (alwaysPassTestM.run [])) ∧
    runByNameBattery [("a", alwaysPassTestM)] "a" [] [("a", neverEligibleTestM)] true
      = Except.ok ([("a", alwaysPassTestM)], some (alwaysPassTestM.run [])) := by
  constructor
  · have h := claim_C10_cache_shadows_battery.1 [] [("a", alwaysPassTestM)] "a"
      alwaysPassTestM [] true rfl rfl
    simpa [alwaysPassTestM] using h
  · have h := claim_C10_cache_shadows_battery.2.1 [] [("a", neverEligibleTestM)] "a"
      alwaysPassTestM [] true
    simpa [alwaysPassTestM] using h

/-! ## Monobit (`src/nistrng/sp800_22r1a/test_monobit.py`) -/

/-- `_execute` of the monobit test. -/
def monobitExecute (f : RealFns) (bits : List ℤ) : ResultR :=
  let ones : ℤ := countNonzero bits
  let zeroes : ℤ := (bits.length : ℤ) - ones
  let difference : ℤ := |ones - zeroes|
  let score := f.erfc ((difference : ℚ) / (f.sqrt (bits.length : ℚ) * f.sqrt 2))
  if score ≥ 1 / 100 then ⟨"Monobit", true, [score]⟩ else ⟨"Monobit", false, [score]⟩

/-! ## Frequency within block
(`src/nistrng/sp800_22r1a/test_frequency_within_block.py`) -/

/-- The `(block_size, blocks_number)` shape: default `M = 20`,
`N_b = N // 20`; when `N_b ≥ 100` instead `N_b = 99` and `M = N // 99`. -/
def frequencyWithinBlockParams (n : ℕ) : ℕ × ℕ :=
  let blockSize := 20
  let blocksNumber := n / blockSize
  if blocksNumber ≥ 100 then (n / 99, 99) else (blockSize, blocksNumber)

/-- `_execute` of the frequency-within-block test. -/
def frequencyWithinBlockExecute (f : RealFns) (bits : List ℤ) : ResultR :=
  let p := frequencyWithinBlockParams bits.length
  let fractions := (List.range p.2).map (fun i =>
    (countNonzero (pyslice bits (i * p.1) ((i + 1) * p.1)) : ℚ) / (p.1 : ℚ))
  let chiSquare := (fractions.map (fun fr => 4 * (p.1 : ℚ) * (fr - 0.5) ^ 2)).sum
  let score := f.gammaincc ((p.2 : ℚ) / 2) (chiSquare / 2)
  if score ≥ 1 / 100 then ⟨"Frequency Within Block", true, [score]⟩
  else ⟨"Frequency Within Block", false, [score]⟩

/-! ## Runs (`src/nistrng/sp800_22r1a/test_runs.py`) -/

/-- `_execute` of the runs test. -/
def runsExecute (f : RealFns) (bits : List ℤ) : ResultR :=
  let proportion : ℚ := (countNonzero bits : ℚ) / (bits.length : ℚ)
  let observedRuns : ℚ := 1 +
    (((List.range (bits.length - 1)).filter
      (fun i => bits.getD i 0 ≠ bits.getD (i + 1) 0)).length : ℚ)
  let score := f.erfc (|observedRuns - 2 * (bits.length : ℚ) * proportion * (1 - proportion)|
    / (2 * f.sqrt (2 * (bits.length : ℚ)) * proportion * (1 - proportion)))
  if score ≥ 1 / 100 then ⟨"Runs", true, [score]⟩ else ⟨"Runs", false, [score]⟩

/-! ## Longest run of ones in a block
(`src/nistrng/sp800_22r1a/test_longest_run_ones_in_a_block.py`) -/

/-- The `(block_size, k, blocks_number)` shape by sequence length. -/
def longestRunParams (n : ℕ) : ℕ × ℕ × ℕ :=
  let blockSize := if n < 6272 then 8 else if n < 750000 then 128 else 10000
  let k := if blockSize = 8 then 3 else if blockSize = 128 then 5 else 6
  let blocksNumber := if blockSize = 8 then 16 else if blockSize = 128 then 49 else 75
  (blockSize, k, blocksNumber)

/-- Longest run of consecutive ones over the first `blockSize` positions of
the block. -/
def longestRunInBlock (block : List ℤ) (blockSize : ℕ) : ℕ :=
  ((List.range blockSize).foldl (fun (st : ℕ × ℕ) j =>
    if block.getD j 0 = 1 then (st.1 + 1, max (st.1 + 1) st.2) else (0, st.2)) (0, 0)).2

/-- The 7 frequency bins with the block-size-dependent clamp offsets. -/
def longestRunFrequencies (bits : List ℤ) (blockSize blocksNumber : ℕ) : List ℕ :=
  (List.range blocksNumber).foldl (fun freq i =>
    let longest := longestRunInBlock (pyslice bits (i * blockSize) ((i + 1) * blockSize)) blockSize
    let idx := if blockSize = 8 then min 3 (longest - 1)
      else if blockSize = 128 then min 5 (longest - 4)
      else min 6 (longest - 10)
    freq.set idx (freq.getD idx 0 + 1)) (List.replicate 7 0)

/-- `_probabilities`: the published reference rows by block size. -/
def longestRunProbabilities (sizeOfBlock index : ℕ) : ℚ :=
  if sizeOfBlock = 8 then [0.1174, 0.2430, 0.2493, 0.1752, 0.1027, 0.1124].getD index 0
  else if sizeOfBlock = 128 then [0.1174, 0.2430, 0.2493, 0.1752, 0.1027, 0.1124].getD index 0
  else if sizeOfBlock = 512 then [0.1170, 0.2460, 0.2523, 0.1755, 0.1027, 0.1124].getD index 0
  else if sizeOfBlock = 1000 then [0.1307, 0.2437, 0.2452, 0.1714, 0.1002, 0.1088].getD index 0
  else [0.0882, 0.2092, 0.2483, 0.1933, 0.1208, 0.0675, 0.0727].getD index 0

/-- `_execute` of the longest-run-of-ones test. -/
def longestRunOnesInABlockExecute (f : RealFns) (bits : List ℤ) : ResultR :=
  let p := longestRunParams bits.length
  let freq := longestRunFrequencies bits p.1 p.2.2
  let chiSquare := ((List.range (p.2.1 + 1)).map (fun i =>
    ((freq.getD i 0 : ℚ) - p.2.2 * longestRunProbabilities p.1 i) ^ 2
      / ((p.2.2 : ℚ) * longestRunProbabilities p.1 i))).sum
  let score := f.gammaincc ((p.2.1 : ℚ) / 2) (chiSquare / 2)
  if score ≥ 1 / 100 then ⟨"Longest Run Ones In A Block", true, [score]⟩
  else ⟨"Longest Run Ones In A Block", false, [score]⟩

/-! ## Discrete Fourier transform
(`src/nistrng/sp800_22r1a/test_discrete_fourier_transform.py`);
the magnitude spectrum `abs(numpy.fft.fft(-))` is the abstracted `f.fftMags`. -/

/-- `_execute` of the spectral test. -/
def discreteFourierTransformExecute (f : RealFns) (bits : List ℤ) : ResultR :=
  let bitsCopy := pm1 (if bits.length % 2 = 1 then bits.dropLast else bits)
  let magnitudes := (f.fftMags bitsCopy).take (bitsCopy.length / 2)
  let threshold := f.sqrt (f.ln (1 / 0.05) * (bitsCopy.length : ℚ))
  let expectedPeaks : ℚ := 0.95 * (bitsCopy.length : ℚ) / 2
  let countedPeaks : ℚ := ((magnitudes.filter (fun m => decide (m < threshold))).length : ℚ)
  let normalizedDifference :=
    (countedPeaks - expectedPeaks) / f.sqrt ((bitsCopy.length : ℚ) * 0.95 * 0.05 / 4)
  let score := f.erfc (|normalizedDifference| / f.sqrt 2)
  if score ≥ 1 / 100 then ⟨"Discrete Fourier Transform", true, [score]⟩
  else ⟨"Discrete Fourier Transform", false, [score]⟩

/-! ## Maurer's universal (`src/nistrng/sp800_22r1a/test_maurers_universal.py`) -/

/-- `self._thresholds`. -/
def maurersThresholds : List ℕ :=
  [904960, 2068480, 4654080, 10342400, 22753280, 49643520, 107560960,
   231669760, 496435200, 1059061760]

/-- `self._expected_value_table`. -/
def maurersExpectedValue : List ℚ :=
  [0, 0.73264948, 1.5374383, 2.40160681, 3.31122472, 4.25342659, 5.2177052,
   6.1962507, 7.1836656, 8.1764248, 9.1723243, 10.170032, 11.168765,
   12.168070, 13.167693, 14.167488, 15.167379]

/-- `self._variance_table`. -/
def maurersVariance : List ℚ :=
  [0, 0.690, 1.338, 1.901, 2.358, 2.705, 2.954, 3.125, 3.238, 3.311, 3.356,
   3.384, 3.401, 3.410, 3.416, 3.419, 3.421]

/-- The pattern length: 6 plus one for every threshold the size reaches. -/
def maurersPatternLength (n : ℕ) : ℕ :=
  6 + (maurersThresholds.filter (fun threshold => decide (n ≥ threshold))).length

/-- `_execute` of Maurer's universal test.  The position table is modelled
as a function from pattern value to the last-seen block index. -/
def maurersUniversalExecute (f : RealFns) (bits : List ℤ) : ResultR :=
  let patternLength := maurersPatternLength bits.length
  let blocksNumber := bits.length / patternLength
  let qBlocks : ℕ := 10 * 2 ^ patternLength
  let kBlocks : ℤ := (blocksNumber : ℤ) - (qBlocks : ℤ)
  let tableQ := (List.range qBlocks).foldl (fun (tab : ℤ → ℤ) i =>
    let pat := patternToInt (pyslice bits (i * patternLength) ((i + 1) * patternLength))
    fun x => if x = pat then (i : ℤ) + 1 else tab x) (fun _ => 0)
  let st := (List.range' qBlocks (blocksNumber - qBlocks)).foldl
    (fun (st : ℚ × (ℤ → ℤ)) i =>
      let pat := patternToInt (pyslice bits (i * patternLength) ((i + 1) * patternLength))
      let difference : ℤ := (i : ℤ) + 1 - st.2 pat
      (st.1 + f.log2 (difference : ℚ), fun x => if x = pat then (i : ℤ) + 1 else st.2 x))
    (0, tableQ)
  let fn := st.1 / (kBlocks : ℚ)
  let magnitude := |(fn - maurersExpectedValue.getD patternLength 0)
    / (f.sqrt (maurersVariance.getD patternLength 0) * f.sqrt 2)|
  let score := f.erfc magnitude
  if score ≥ 1 / 100 then ⟨"Maurers Universal", true, [score]⟩
  else ⟨"Maurers Universal", false, [score]⟩

/-! ## Linear complexity (`src/nistrng/sp800_22r1a/test_linear_complexity.py`) -/

/-- Bitwise AND restricted to the 0/1 domain guaranteed by the data model
(`c[j] & sequence[n - j]`). -/
def bland (a b : ℤ) : ℤ := if a = 1 ∧ b = 1 then 1 else 0

/-- Bitwise XOR restricted to the 0/1 domain (`x ^ y`). -/
def blxor (a b : ℤ) : ℤ := if a = b then 0 else 1

/-- `_berlekamp_massey`: `b` and `c` start as `0…0` with first element 1,
`generator_length = 0`, `m = −1`; the scan over `n` computes the
discrepancy `seq[n] ^ ⨁_{j=1..L} c[j] & seq[n−j]` (the index `n − j` stays
nonnegative because `L ≤ n` throughout), fixes `c` on a nonzero
discrepancy, and updates `(L, m, b)` when `L ≤ n/2`. -/
def berlekampMassey (sequence : List ℤ) : ℕ :=
  let size := sequence.length
  let st := (List.range size).foldl
    (fun (st : List ℤ × List ℤ × ℕ × ℤ) n =>
      let b := st.1
      let c := st.2.1
      let generatorLength := st.2.2.1
      let m := st.2.2.2
      let discrepancy := (List.range generatorLength).foldl
        (fun d j => blxor d (bland (c.getD (j + 1) 0) (sequence.getD (n - (j + 1)) 0)))
        (sequence.getD n 0)
      if discrepancy ≠ 0 then
        let t := c
        let base := ((n : ℤ) - m).toNat
        let c2 := (List.range ((size : ℤ) - n + m).toNat).foldl
          (fun cc j => cc.set (base + j) (blxor (cc.getD (base + j) 0) (b.getD j 0))) c
        if generatorLength ≤ n / 2 then (t, c2, n + 1 - generatorLength, (n : ℤ))
        else (b, c2, generatorLength, m)
      else (b, c, generatorLength, m))
    ((List.replicate size 0).set 0 1, (List.replicate size 0).set 0 1, 0, -1)
  st.2.2.1

/-- `self._mu` with `M = 512`. -/
def linearComplexityMu : ℚ :=
  (512 : ℚ) / 2 + ((-1 : ℚ) ^ (512 + 1) + 9) / 36 - ((512 : ℚ) / 3 + 2 / 9) / 2 ^ 512

/-- `self._probabilities`. -/
def linearComplexityProbabilities : List ℚ :=
  [0.010417, 0.03125, 0.125, 0.5, 0.25, 0.0625, 0.020833]

/-- `_execute` of the linear complexity test. -/
def linearComplexityExecute (f : RealFns) (bits : List ℤ) : ResultR :=
  let blocksNumber := bits.length / 512
  let tickets := (List.range blocksNumber).map (fun i =>
    (-1 : ℚ) ^ (512 : ℕ) *
      ((berlekampMassey (pyslice bits (i * 512) ((i + 1) * 512)) : ℚ) - linearComplexityMu)
      + 2 / 9)
  let frequencies := tickets.foldl (fun freq ticket =>
    let idx := min 6 (Int.toNat ⌊max (-(5 / 2 : ℚ)) ticket + 5 / 2⌋)
    freq.set idx (freq.getD idx 0 + 1)) (List.replicate 7 0)
  let chiSquare := ((frequencies.zip linearComplexityProbabilities).map (fun p =>
    ((p.1 : ℚ) - blocksNumber * p.2) ^ 2 / ((blocksNumber : ℚ) * p.2))).sum
  let score := f.gammaincc ((6 : ℚ) / 2) (chiSquare / 2)
  if score ≥ 1 / 100 then ⟨"Linear Complexity", true, [score]⟩
  else ⟨"Linear Complexity", false, [score]⟩

/-! ## Serial (`src/nistrng/sp800_22r1a/test_serial.py`) -/

/-- `_count_pattern`. -/
def serialCountPattern (pattern padded : List ℤ) (sequenceSize : ℕ) : ℕ :=
  ((List.range sequenceSize).filter (fun i =>
    (List.range pattern.length).all (fun j => pattern.getD j 0 == padded.getD (i + j) 0))).length

/-- `_psi_sq_mv1`: the patterns enumerate `(i >> j) & 1` (LSB first). -/
def psiSqMv1 (blockSize sequenceSize : ℕ) (padded : List ℤ) : ℚ :=
  let counts := (List.range (2 ^ blockSize)).map (fun i =>
    serialCountPattern ((List.range blockSize).map (fun j => (((i >>> j) % 2 : ℕ) : ℤ)))
      padded sequenceSize)
  ((counts.map (fun c => (c : ℚ) ^ 2)).sum) * ((2 ^ blockSize : ℕ) : ℚ) / (sequenceSize : ℚ)
    - (sequenceSize : ℚ)

/-- `_execute` of the serial test (`pattern_length = 4`). -/
def serialExecute (f : RealFns) (bits : List ℤ) : ResultR :=
  let padded := bits ++ bits.take 3
  let psi0 := psiSqMv1 4 bits.length padded
  let psi1 := psiSqMv1 3 bits.length padded
  let psi2 := psiSqMv1 2 bits.length padded
  let score1 := f.gammaincc ((2 ^ 2 : ℕ) : ℚ) ((psi0 - psi1) / 2)
  let score2 := f.gammaincc ((2 ^ 1 : ℕ) : ℚ) ((psi0 - 2 * psi1 + psi2) / 2)
  if score1 ≥ 1 / 100 ∧ score2 ≥ 1 / 100 then ⟨"Serial", true, [score1, score2]⟩
  else ⟨"Serial", false, [score1, score2]⟩

/-! ## Approximate entropy (`src/nistrng/sp800_22r1a/test_approximate_entropy.py`) -/

/-- One `Φ` statistic: pad with the first `iteration − 1` bits, count every
`iteration`-bit pattern, and sum `c_i·ln(c_i/10)` over the positive
frequencies (note the `/10` of the source). -/
def approximateEntropyPhi (f : RealFns) (bits : List ℤ) (iteration : ℕ) : ℚ :=
  let padded := bits ++ bits.take (iteration - 1)
  let counts := (List.range (2 ^ iteration)).map (fun i =>
    ((List.range bits.length).filter (fun j =>
      patternToInt (pyslice padded j (j + iteration)) = (i : ℤ))).length)
  ((counts.filter (fun c => decide (0 < c))).map (fun c =>
    ((c : ℚ) / (bits.length : ℚ)) * f.ln ((c : ℚ) / (bits.length : ℚ) / 10))).sum

/-- `_execute` of the approximate entropy test. -/
def approximateEntropyExecute (f : RealFns) (bits : List ℤ) : ResultR :=
  let blocksLength := (approximateEntropyBlocksLength bits.length).toNat
  let phiM := approximateEntropyPhi f bits blocksLength
  let phiM1 := approximateEntropyPhi f bits (blocksLength + 1)
  let chiSquare := 2 * (bits.length : ℚ) * (f.ln 2 - (phiM - phiM1))
  let score := f.gammaincc ((2 ^ (blocksLength - 1) : ℕ) : ℚ) (chiSquare / 2)
  if score ≥ 1 / 100 then ⟨"Approximate Entropy", true, [score]⟩
  else ⟨"Approximate Entropy", false, [score]⟩

/-! ## Cumulative sums (`src/nistrng/sp800_22r1a/test_cumulative_sums.py`) -/

/-- The forward and backward maximal absolute excursions. -/
def cumulativeSumsMaxima (bits : List ℤ) : ℤ × ℤ :=
  let bitsCopy := pm1 bits
  let st := (List.range bitsCopy.length).foldl
    (fun (st : ℤ × ℤ × ℤ × ℤ) i =>
      let forwardSum := st.1 + bitsCopy.getD i 0
      let backwardSum := st.2.1 + bitsCopy.getD (bitsCopy.length - 1 - i) 0
      (forwardSum, backwardSum, max |forwardSum| st.2.2.1, max |backwardSum| st.2.2.2))
    (0, 0, 0, 0)
  (st.2.2.1, st.2.2.2)

/-- `_compute_p_value`: the two sums of `0.5·erfc` differences over the
NIST index ranges. -/
def cumulativeSumsPValue (f : RealFns) (sequenceSize : ℕ) (maxExcursion : ℤ) : ℚ :=
  let startA := ⌊((-(sequenceSize : ℚ) / (maxExcursion : ℚ)) + 1) / 4⌋
  let endA := ⌊(((sequenceSize : ℚ) / (maxExcursion : ℚ)) - 1) / 4⌋
  let sumA := ((intRange startA endA).map (fun k =>
    0.5 * f.erfc (-((4 * (k : ℚ) + 1) * (maxExcursion : ℚ))
        / f.sqrt (sequenceSize : ℚ) * f.sqrt 0.5)
      - 0.5 * f.erfc (-((4 * (k : ℚ) - 1) * (maxExcursion : ℚ))
        / f.sqrt (sequenceSize : ℚ) * f.sqrt 0.5))).sum
  let startB := ⌊((-(sequenceSize : ℚ) / (maxExcursion : ℚ)) - 3) / 4⌋
  let endB := ⌊(((sequenceSize : ℚ) / (maxExcursion : ℚ)) - 1) / 4⌋
  let sumB := ((intRange startB endB).map (fun k =>
    0.5 * f.erfc (-((4 * (k : ℚ) + 3) * (maxExcursion : ℚ))
        / f.sqrt (sequenceSize : ℚ) * f.sqrt 0.5)
      - 0.5 * f.erfc (-((4 * (k : ℚ) + 1) * (maxExcursion : ℚ))
        / f.sqrt (sequenceSize : ℚ) * f.sqrt 0.5))).sum
  1 - sumA + sumB

/-- `_execute` of the cumulative sums test. -/
def cumulativeSumsExecute (f : RealFns) (bits : List ℤ) : ResultR :=
  let maxima := cumulativeSumsMaxima bits
  let score1 := cumulativeSumsPValue f bits.length maxima.1
  let score2 := cumulativeSumsPValue f bits.length maxima.2
  if score1 ≥ 1 / 100 ∧ score2 ≥ 1 / 100 then ⟨"Cumulative Sums", true, [score1, score2]⟩
  else ⟨"Cumulative Sums", false, [score1, score2]⟩
/-! ## Binary matrix rank (`src/nistrng/sp800_22r1a/test_binary_matrix_rank.py`) -/

/-- Row access of the `BinaryMatrix` (list of 32 rows of 32 bits). -/
def mrow (mat : List (List ℤ)) (i : ℕ) : List ℤ := mat.getD i []

/-- Entry access `matrix[i][j]`. -/
def mentry (mat : List (List ℤ)) (i j : ℕ) : ℤ := (mrow mat i).getD j 0

/-- `(matrix[j, :] + matrix[i, :]) % 2`. -/
def xorRows (r s : List ℤ) : List ℤ := List.zipWith (fun a b => (a + b) % 2) r s

/-- `_perform_row_operations` with `forward_elimination = True`: xor the
pivot row into every following row with a 1 in column `i`. -/
def performRowOperationsFwd (mat : List (List ℤ)) (i rows : ℕ) : List (List ℤ) :=
  ((List.range rows).drop (i + 1)).foldl (fun m j =>
    if mentry m j i = 1 then m.set j (xorRows (mrow m j) (mrow m i)) else m) mat

/-- `_perform_row_operations` with `forward_elimination = False`: the same
upwards, from row `i − 1` down to row 0. -/
def performRowOperationsBwd (mat : List (List ℤ)) (i : ℕ) : List (List ℤ) :=
  ((List.range i).reverse).foldl (fun m j =>
    if mentry m j i = 1 then m.set j (xorRows (mrow m j) (mrow m i)) else m) mat

/-- `_swap_rows` (the Python version returns 1, folded into the callers). -/
def swapRows (mat : List (List ℤ)) (a b : ℕ) : List (List ℤ) :=
  (mat.set a (mrow mat b)).set b (mrow mat a)

/-- `_find_unit_element_swap` downwards: the first row below `i` with a
nonzero entry in column `i` is swapped with row `i`; the flag mirrors the
Python return value. -/
def findUnitElementSwapFwd (mat : List (List ℤ)) (i rows : ℕ) : List (List ℤ) × ℕ :=
  match ((List.range rows).drop (i + 1)).find? (fun idx => mentry mat idx i ≠ 0) with
  | some idx => (swapRows mat i idx, 1)
  | none => (mat, 0)

/-- `_find_unit_element_swap` upwards (first row above `i`, scanning from
`i − 1` down). -/
def findUnitElementSwapBwd (mat : List (List ℤ)) (i : ℕ) : List (List ℤ) × ℕ :=
  match ((List.range i).reverse).find? (fun idx => mentry mat idx i ≠ 0) with
  | some idx => (swapRows mat i idx, 1)
  | none => (mat, 0)

/-- `compute_rank`: forward elimination over the first `base_rank − 1`
pivots, backward elimination from `base_rank − 1` down to 1, then
`base_rank` minus the number of all-zero rows. -/
def computeRank (mat0 : List (List ℤ)) (rows cols : ℕ) : ℤ :=
  let baseRank := min rows cols
  let m1 := (List.range (baseRank - 1)).foldl (fun m i =>
    if mentry m i i = 1 then performRowOperationsFwd m i rows
    else
      let fs := findUnitElementSwapFwd m i rows
      if fs.2 = 1 then performRowOperationsFwd fs.1 i rows else fs.1) mat0
  let m2 := (((List.range baseRank).drop 1).reverse).foldl (fun m i =>
    if mentry m i i = 1 then performRowOperationsBwd m i
    else
      let fs := findUnitElementSwapBwd m i
      if fs.2 = 1 then performRowOperationsBwd fs.1 i else fs.1) m1
  (baseRank : ℤ) - (((List.range rows).filter (fun i =>
    (List.range cols).all (fun j => !(mentry m2 i j == 1)))).length : ℤ)

/-- `_product`: the closed-form probability product. -/
def binaryMatrixRankProduct (numberOfRows numberOfCols : ℕ) : ℚ :=
  ((List.range numberOfRows).map (fun i =>
    ((1 - (2 : ℚ) ^ ((i : ℤ) - (numberOfCols : ℤ))) * (1 - (2 : ℚ) ^ ((i : ℤ) - (numberOfRows : ℤ))))
      / (1 - (2 : ℚ) ^ ((i : ℤ) - (numberOfRows : ℤ))))).prod

/-- `self._full_rank_probability` (the exponent evaluates to 0). -/
def fullRankProbability : ℚ :=
  binaryMatrixRankProduct 32 32 * (2 : ℚ) ^ ((32 * (32 + 32 - 32) : ℤ) - 32 * 32)

/-- `self._minus_rank_probability`. -/
def minusRankProbability : ℚ :=
  binaryMatrixRankProduct 31 32 * (2 : ℚ) ^ ((32 * (32 + 32 - 32) : ℤ) - 32 * 32)

/-- `self._remained_rank_probability`. -/
def remainedRankProbability : ℚ := 1 - (fullRankProbability + minusRankProbability)

/-- `_execute` of the binary matrix rank test. -/
def binaryMatrixRankExecute (f : RealFns) (bits : List ℤ) : ResultR :=
  let blocksNumber := bits.length / (32 * 32)
  let counts := (List.range blocksNumber).foldl (fun (c : ℕ × ℕ × ℕ) i =>
    let block := pyslice bits (i * (32 * 32)) ((i + 1) * (32 * 32))
    let matrix := (List.range 32).map (fun r => pyslice block (r * 32) ((r + 1) * 32))
    let rank := computeRank matrix 32 32
    if rank = 32 then (c.1 + 1, c.2.1, c.2.2)
    else if rank = 32 - 1 then (c.1, c.2.1 + 1, c.2.2)
    else (c.1, c.2.1, c.2.2 + 1)) (0, 0, 0)
  let chiSquare :=
    ((counts.1 : ℚ) - fullRankProbability * blocksNumber) ^ 2
        / (fullRankProbability * (blocksNumber : ℚ))
      + ((counts.2.1 : ℚ) - minusRankProbability * blocksNumber) ^ 2
        / (minusRankProbability * (blocksNumber : ℚ))
      + ((counts.2.2 : ℚ) - remainedRankProbability * blocksNumber) ^ 2
        / (remainedRankProbability * (blocksNumber : ℚ))
  let score := f.expE (-chiSquare / 2)
  if score ≥ 1 / 100 then ⟨"Binary Matrix Rank", true, [score]⟩
  else ⟨"Binary Matrix Rank", false, [score]⟩

/-- The invariant shape: the passed flag equals the conjunction of
`score ≥ α` over the returned score vector. -/
def passedMatchesScores (r : ResultR) : Prop :=
  r.passed = r.scores.all (fun s => decide ((1 : ℚ) / 100 ≤ s))

lemma passed_eq_all_single (nm : String) (s : ℚ) :
    passedMatchesScores (if s ≥ 1 / 100 then (⟨nm, true, [s]⟩ : ResultR) else ⟨nm, false, [s]⟩) := by
  rw [passedMatchesScores]
  split <;> rename_i h <;> simp_all

lemma passed_eq_all_pair (nm : String) (s1 s2 : ℚ) :
    passedMatchesScores
      (if s1 ≥ 1 / 100 ∧ s2 ≥ 1 / 100 then (⟨nm, true, [s1, s2]⟩ : ResultR)
       else ⟨nm, false, [s1, s2]⟩) := by
  rw [passedMatchesScores]
  split <;> rename_i h <;> simp_all

lemma passed_eq_all_list (nm : String) (scores : List ℚ) :
    passedMatchesScores
      (if scores.all (fun s => decide ((1 : ℚ) / 100 ≤ s)) then (⟨nm, true, scores⟩ : ResultR)
       else ⟨nm, false, scores⟩) := by
  rw [passedMatchesScores]
  split <;> rename_i h <;> simp_all

lemma passed_eq_all_template (nm : String) (chi q : ℚ) :
    passedMatchesScores
      (if chi ≠ 0 then
        (if q ≥ 1 / 100 then (⟨nm, true, [q]⟩ : ResultR) else ⟨nm, false, [0]⟩)
       else ⟨nm, false, [0]⟩) := by
  rw [passedMatchesScores]
  by_cases h1 : chi ≠ 0
  · rw [if_pos h1]
    by_cases h2 : q ≥ 1 / 100
    · rw [if_pos h2]
      simpa using h2
    · rw [if_neg h2]
      norm_num
  · rw [if_neg h1]
    norm_num

/-- C8: for every test of the default battery, on every input (and for the
non-overlapping test every selected template), the Result's passed flag
equals the conjunction of `score ≥ 0.01` over the entries of the returned
score vector. -/
theorem claim_C8_passed_equals_conjunction :
    (∀ (f : RealFns) (bits : List ℤ), passedMatchesScores (monobitExecute f bits)) ∧
    (∀ (f : RealFns) (bits : List ℤ), passedMatchesScores (frequencyWithinBlockExecute f bits)) ∧
    (∀ (f : RealFns) (bits : List ℤ), passedMatchesScores (runsExecute f bits)) ∧
    (∀ (f : RealFns) (bits : List ℤ), passedMatchesScores (longestRunOnesInABlockExecute f bits)) ∧
    (∀ (f : RealFns) (bits : List ℤ), passedMatchesScores (binaryMatrixRankExecute f bits)) ∧
    (∀ (f : RealFns) (bits : List ℤ), passedMatchesScores (discreteFourierTransformExecute f bits)) ∧
    (∀ (f : RealFns) (tpl bits : List ℤ),
      passedMatchesScores (nonOverlappingTemplateMatchingExecute f tpl bits)) ∧
    (∀ (f : RealFns) (bits : List ℤ), passedMatchesScores (overlappingTemplateMatchingExecute f bits)) ∧
    (∀ (f : RealFns) (bits : List ℤ), passedMatchesScores (maurersUniversalExecute f bits)) ∧
    (∀ (f : RealFns) (bits : List ℤ), passedMatchesScores (linearComplexityExecute f bits)) ∧
    (∀ (f : RealFns) (bits : List ℤ), passedMatchesScores (serialExecute f bits)) ∧
    (∀ (f : RealFns) (bits : List ℤ), passedMatchesScores (approximateEntropyExecute f bits)) ∧
    (∀ (f : RealFns) (bits : List ℤ), passedMatchesScores (cumulativeSumsExecute f bits)) ∧
    (∀ (f : RealFns) (bits : List ℤ), passedMatchesScores (randomExcursionExecute f bits)) ∧
    (∀ (f : RealFns) (bits : List ℤ), passedMatchesScores (randomExcursionVariantExecute f bits)) := by
  refine ⟨?_, ?_, ?_, ?_, ?_, ?_, ?_, ?_, ?_, ?_, ?_, ?_, ?_, ?_, ?_⟩
  · intro f bits
    simp only [monobitExecute]
    exact passed_eq_all_single _ _
  · intro f bits
    simp only [frequencyWithinBlockExecute]
    exact passed_eq_all_single _ _
  · intro f bits
    simp only [runsExecute]
    exact passed_eq_all_single _ _
  · intro f bits
    simp only [longestRunOnesInABlockExecute]
    exact passed_eq_all_single _ _
  · intro f bits
    simp only [binaryMatrixRankExecute]
    exact passed_eq_all_single _ _
  · intro f bits
    simp only [discreteFourierTransformExecute]
    exact passed_eq_all_single _ _
  · intro f tpl bits
    simp only [nonOverlappingTemplateMatchingExecute, nonOverlappingCore]
    exact passed_eq_all_template _ _ _
  · intro f bits
    simp only [overlappingTemplateMatchingExecute]
    exact passed_eq_all_template _ _ _
  · intro f bits
    simp only [maurersUniversalExecute]
    exact passed_eq_all_single _ _
  · intro f bits
    simp only [linearComplexityExecute]
    exact passed_eq_all_single _ _
  · intro f bits
    simp only [serialExecute]
    exact passed_eq_all_pair _ _ _
  · intro f bits
    simp only [approximateEntropyExecute]
    exact passed_eq_all_single _ _
  · intro f bits
    simp only [cumulativeSumsExecute]
    exact passed_eq_all_pair _ _ _
  · intro f bits
    simp only [randomExcursionExecute]
    exact passed_eq_all_list _ _
  · intro f bits
    simp only [randomExcursionVariantExecute]
    exact passed_eq_all_list _ _
